import Mathlib

/-!
Verification of the job-orchestration core of the review-site factory
service (`main.py`).

The Python source is shallowly embedded: pure helpers become Lean
functions over `String` / `List Char`; the effectful orchestration code
(`build_site_and_notify`, `_kill_process_group`, the HTTP endpoints)
becomes explicit state passing over a small environment type that fixes
the outcome of each external interaction (process spawn, process wait,
group kill, webhook POST), and the function's observable behaviour is a
trace of events (kill actions, POST attempts) plus a possible escaping
exception.  Python exceptions are modelled with `Except`; a Python dict
payload is modelled as a structure of optional fields where `none` means
the key is absent.
-/

-- ===========================================================================
-- Python string primitives (character-level, matching CPython semantics on
-- the ASCII fragment used by the service's patterns and inputs)
-- ===========================================================================

/-- Whitespace for Python `str.strip()` and for the regex class `\s`
(ASCII fragment). -/
def pySpace (c : Char) : Bool :=
  c == ' ' || c == '\t' || c == '\n' || c == '\r' || c == '\x0b' || c == '\x0c'

/-- Python `str.strip()` on a character list. -/
def pyStripList (l : List Char) : List Char :=
  ((l.dropWhile pySpace).reverse.dropWhile pySpace).reverse

/-- Python `str.strip()`. -/
def pyStrip (s : String) : String :=
  String.mk (pyStripList s.toList)

/-- ASCII lower-casing: the fragment of Python `str.lower` relevant to the
slug and marker alphabets. -/
def toLowerPy (c : Char) : Char :=
  if 'A' ≤ c ∧ c ≤ 'Z' then Char.ofNat (c.toNat + 32) else c

/-- Does `l` start with `pre`? (Python `str.startswith`.) -/
def startsWithL : List Char → List Char → Bool
  | _, [] => true
  | [], _ :: _ => false
  | a :: as, b :: bs => a == b && startsWithL as bs

/-- Python substring membership `needle in hay`. -/
def containsSub (hay needle : List Char) : Bool :=
  match hay with
  | [] => needle.isEmpty
  | _ :: t => startsWithL hay needle || containsSub t needle

/-- Python slice `l[-n:]` on a sequence: the last `n` elements (everything
when `n ≥ length`). -/
def takeLast {α : Type} (n : Nat) (l : List α) : List α :=
  l.drop (l.length - n)

/-- Line-break characters recognised by Python `str.splitlines`. -/
def pyLineBreak (c : Char) : Bool :=
  c == '\n' || c == '\r' || c == '\x0b' || c == '\x0c' ||
  c == '\x1c' || c == '\x1d' || c == '\x1e' || c == '\x85' ||
  c == '\u2028' || c == '\u2029'

/-- Worker for `pySplitlines`: `cur` is the current line, reversed. -/
def pySplitlinesGo (cur : List Char) : List Char → List (List Char)
  | [] => [cur.reverse]
  | '\r' :: '\n' :: rest =>
    cur.reverse :: (match rest with
      | [] => []
      | _ :: _ => pySplitlinesGo [] rest)
  | c :: rest =>
    if pyLineBreak c then
      cur.reverse :: (match rest with
        | [] => []
        | _ :: _ => pySplitlinesGo [] rest)
    else
      pySplitlinesGo (c :: cur) rest

/-- Python `str.splitlines()`: split on line terminators (`\r\n` counts as
one), with no trailing empty line for a trailing terminator. -/
def pySplitlines (l : List Char) : List (List Char) :=
  match l with
  | [] => []
  | _ :: _ => pySplitlinesGo [] l

/-- Python `"\n".join(lines)`. -/
def joinNL (ls : List (List Char)) : List Char :=
  List.intercalate ['\n'] ls

-- ===========================================================================
-- `_site_slug` (main.py lines 125-129):
--   s = name.lower().replace(" ", "-"); s = re.sub(r"[^a-z0-9-]", "", s)
-- ===========================================================================

/-- The character class `[a-z0-9-]` kept by the slug's `re.sub`. -/
def slugAllowed (c : Char) : Bool :=
  ('a' ≤ c && c ≤ 'z') || ('0' ≤ c && c ≤ '9') || c == '-'

/-- `_site_slug`: lower-case, each space to a hyphen, then drop every
character outside `[a-z0-9-]`. -/
def _site_slug (name : String) : String :=
  String.mk (((name.toList.map toLowerPy).map
      (fun c => if c == ' ' then '-' else c)).filter slugAllowed)

-- ===========================================================================
-- Build-log status classification and raw-log windowing
-- (`get_build_log`, main.py lines 252-287)
-- ===========================================================================

/-- The completion marker searched for in the log tail: `"🌐 Open:"`. -/
def openMarker : List Char := "🌐 Open:".toList

/-- The failure marker searched for in the log tail: `"❌ Failed"`. -/
def failMarker : List Char := "❌ Failed".toList

/-- The non-zero-exit marker searched for in the log tail: `"exit 1"`. -/
def exitMarker : List Char := "exit 1".toList

/-- `tail = full_log[-2000:]` — the bounded tail window inspected for
status markers. -/
def tailWindow (log : List Char) : List Char := takeLast 2000 log

/-- Status classification from the tail of the log (main.py lines 273-280):
completion marker ⇒ `complete`, else failure or exit marker ⇒ `failed`,
else `in_progress`. -/
def build_status (log : List Char) : String :=
  let tail := tailWindow log
  if containsSub tail openMarker then "complete"
  else if containsSub tail failMarker || containsSub tail exitMarker then "failed"
  else "in_progress"

/-- `raw = "\n".join(full_log.splitlines()[-lines:]) if lines > 0 else
full_log` (main.py line 271). `lines` is a Python int, so modelled as `Int`. -/
def raw_log (full_log : List Char) (lines : Int) : List Char :=
  if lines > 0 then joinNL (takeLast lines.toNat (pySplitlines full_log))
  else full_log

example : build_status "⚙️ building\n🌐 Open: http://x/y/index.html".toList = "complete" := by decide
example : build_status "step 1\n❌ Failed (exit 1)".toList = "failed" := by decide
example : build_status "step 1 running".toList = "in_progress" := by decide
example : raw_log "a\nb\nc".toList 2 = "b\nc".toList := by decide
example : raw_log "a\nb\nc".toList (-3) = "a\nb\nc".toList := by decide

-- ===========================================================================
-- `_parse_build_stats` (main.py lines 215-249)
--
-- Each `re.search` call is embedded as a dedicated matcher.  None of the
-- eight patterns needs regex backtracking: in each one, every greedy
-- repetition is followed by a literal outside its character class, so a
-- maximal-munch scanner computes exactly the regex engine's match.
-- `re.search`'s leftmost-match rule is `reSearch`: try each start position
-- left to right.
-- ===========================================================================

/-- Greedy `X+` for a character class: the maximal nonempty run. -/
def many1 (p : Char → Bool) (l : List Char) : Option (List Char × List Char) :=
  let m := l.takeWhile p
  if m.isEmpty then none else some (m, l.dropWhile p)

/-- Greedy `X*` for a character class: the maximal (possibly empty) run. -/
def many0 (p : Char → Bool) (l : List Char) : List Char × List Char :=
  (l.takeWhile p, l.dropWhile p)

/-- Match a literal. -/
def lit (s : List Char) (l : List Char) : Option (List Char) :=
  if startsWithL l s then some (l.drop s.length) else none

/-- Greedy `c?`: consume `c` when present. -/
def opt (c : Char) (l : List Char) : List Char :=
  match l with
  | a :: rest => if a == c then rest else l
  | [] => l

/-- `re.search`: try the pattern at each start position, left to right. -/
def reSearch {α : Type} (m : List Char → Option α) : List Char → Option α
  | [] => m []
  | c :: t =>
    match m (c :: t) with
    | some r => some r
    | none => reSearch m (t)

/-- Regex `\w` (ASCII fragment). -/
def reWord (c : Char) : Bool := c.isAlphanum || c == '_'

/-- Regex `\S` (ASCII fragment). -/
def reNonSpace (c : Char) : Bool := !pySpace c

/-- Regex `[\d.]`. -/
def digitDot (c : Char) : Bool := c.isDigit || c == '.'

/-- `Total time:\s+([\d]+m\s+[\d]+s)` at one position; yields group 1. -/
def matchTotalTime (l : List Char) : Option (List Char) := do
  let l ← lit "Total time:".toList l
  let (_, l) ← many1 pySpace l
  let (d1, l) ← many1 Char.isDigit l
  let l ← lit ['m'] l
  let (w, l) ← many1 pySpace l
  let (d2, l) ← many1 Char.isDigit l
  let _ ← lit ['s'] l
  pure (d1 ++ ['m'] ++ w ++ d2 ++ ['s'])

/-- `Mode:\s+(\w+)\s+\(([^)]+)\)` at one position; yields groups 1 and 2. -/
def matchMode (l : List Char) : Option (List Char × List Char) := do
  let l ← lit "Mode:".toList l
  let (_, l) ← many1 pySpace l
  let (w, l) ← many1 reWord l
  let (_, l) ← many1 pySpace l
  let l ← lit ['('] l
  let (inner, l) ← many1 (fun c => !(c == ')')) l
  let _ ← lit [')'] l
  pure (w, inner)

/-- `Generated:\s+(\d+)\s*/\s*(\d+)` at one position; yields groups 1, 2. -/
def matchGenerated (l : List Char) : Option (List Char × List Char) := do
  let l ← lit "Generated:".toList l
  let (_, l) ← many1 pySpace l
  let (a, l) ← many1 Char.isDigit l
  let (_, l) := many0 pySpace l
  let l ← lit ['/'] l
  let (_, l) := many0 pySpace l
  let (b, _) ← many1 Char.isDigit l
  pure (a, b)

/-- `Failed:\s+(\d+)` at one position; yields group 1. -/
def matchFailed (l : List Char) : Option (List Char) := do
  let l ← lit "Failed:".toList l
  let (_, l) ← many1 pySpace l
  let (a, _) ← many1 Char.isDigit l
  pure a

/-- `Total:\s+~?\$?([\d.]+)` at one position; yields group 1. -/
def matchTotalCost (l : List Char) : Option (List Char) := do
  let l ← lit "Total:".toList l
  let (_, l) ← many1 pySpace l
  let l := opt '~' l
  let l := opt '$' l
  let (g, _) ← many1 digitDot l
  pure g

/-- `Assets size:\s+(\S+)` at one position; yields group 1. -/
def matchAssetsSize (l : List Char) : Option (List Char) := do
  let l ← lit "Assets size:".toList l
  let (_, l) ← many1 pySpace l
  let (g, _) ← many1 reNonSpace l
  pure g

/-- `Total size:\s+(\S+)` at one position; yields group 1. -/
def matchTotalSize (l : List Char) : Option (List Char) := do
  let l ← lit "Total size:".toList l
  let (_, l) ← many1 pySpace l
  let (g, _) ← many1 reNonSpace l
  pure g

/-- `Open:\s+(https?://\S+)` at one position; yields group 1.  The only
pattern where greedy `s?` can need one backtrack step (text `https` not
followed by `://`), handled by trying `s://` before `://`. -/
def matchOpenUrl (l : List Char) : Option (List Char) := do
  let l ← lit "Open:".toList l
  let (_, l) ← many1 pySpace l
  let l ← lit "http".toList l
  let (scheme, l) ←
    match lit "s://".toList l with
    | some rest => some ("https://".toList, rest)
    | none =>
      match lit "://".toList l with
      | some rest => some ("http://".toList, rest)
      | none => none
  let (g, _) ← many1 reNonSpace l
  pure (scheme ++ g)

/-- Digits to a number, as Python `int`. -/
def natOfDigits (l : List Char) : Nat :=
  l.foldl (fun n c => n * 10 + (c.toNat - 48)) 0

/-- Does Python `float(s)` succeed on a `[\d.]+` string?  It does exactly
when there is at most one dot and at least one digit. -/
def pyFloatOk (l : List Char) : Bool :=
  l.count '.' ≤ 1 && l.any Char.isDigit

/-- The parsed stats record: a Python dict with independently optional
keys.  `estimated_cost_usd` keeps the matched text (Python stores
`float(text)`; the conversion's failure is what matters here, not the
numeric value). -/
structure BuildStats where
  total_time : Option String := none
  mode : Option String := none
  images_generated : Option Nat := none
  images_total : Option Nat := none
  images_failed : Option Nat := none
  estimated_cost_usd : Option String := none
  assets_size : Option String := none
  total_size : Option String := none
  site_url : Option String := none
deriving DecidableEq, Repr

/-- The patterns evaluated after the cost line (main.py lines 239-247). -/
def statsAfterCost (t : List Char) (s : BuildStats) : BuildStats :=
  let s := match reSearch matchAssetsSize t with
    | some g => { s with assets_size := some (pyStrip (String.mk g)) }
    | none => s
  let s := match reSearch matchTotalSize t with
    | some g => { s with total_size := some (pyStrip (String.mk g)) }
    | none => s
  match reSearch matchOpenUrl t with
  | some g => { s with site_url := some (pyStrip (String.mk g)) }
  | none => s

/-- `_parse_build_stats` (main.py lines 215-249).  Python's unhandled
`ValueError` from `float(...)` on the cost group is the `.error` case. -/
def _parse_build_stats (log_text : String) : Except String BuildStats :=
  let t := log_text.toList
  let s : BuildStats := {}
  let s := match reSearch matchTotalTime t with
    | some g => { s with total_time := some (pyStrip (String.mk g)) }
    | none => s
  let s := match reSearch matchMode t with
    | some (w, inner) =>
      { s with mode := some (String.mk w ++ " (" ++ pyStrip (String.mk inner) ++ ")") }
    | none => s
  let s := match reSearch matchGenerated t with
    | some (a, b) =>
      { s with images_generated := some (natOfDigits a),
               images_total := some (natOfDigits b) }
    | none => s
  let s := match reSearch matchFailed t with
    | some a => { s with images_failed := some (natOfDigits a) }
    | none => s
  match reSearch matchTotalCost t with
  | some g =>
    if pyFloatOk g then
      .ok (statsAfterCost t { s with estimated_cost_usd := some (String.mk g) })
    else
      .error ("could not convert string to float: " ++ String.mk g)
  | none => .ok (statsAfterCost t s)

example :
    _parse_build_stats "Total time: 12m 3s\nGenerated: 5 / 6\nFailed: 1\nTotal: ~$0.24\n🌐 Open: http://h/s/index.html" =
    .ok { total_time := some "12m 3s", images_generated := some 5,
          images_total := some 6, images_failed := some 1,
          estimated_cost_usd := some "0.24",
          site_url := some "http://h/s/index.html" } := by rfl

example : _parse_build_stats "" = .ok {} := by rfl

example : (_parse_build_stats "Total: 1.2.3").isOk = false := by decide

-- ===========================================================================
-- `_kill_process_group` (main.py lines 109-123)
--
-- The OS interactions are fixed by a `KillEnv`: what `os.getpgid`,
-- `os.killpg` and `process.kill()` would do if called.  The function's
-- observable behaviour is the list of kill actions it performs; its Python
-- return is `Except` so that "an exception escapes" is representable.
-- ===========================================================================

/-- A Python exception, split the way the handlers split it. -/
inductive PyExc where
  | processLookup
  | other (msg : String)
deriving DecidableEq, Repr

/-- Outcomes of the OS calls `_kill_process_group` can make. -/
structure KillEnv where
  getpgid : Except PyExc Nat
  killpg : Except PyExc Unit
  childKill : Except PyExc Unit
deriving Repr

/-- An observable action of the orchestration code. -/
inductive Event where
  | killGroup (pgid : Nat)
  | killChild
  | postAttempt (url : String) (payload_status : String)
deriving DecidableEq, Repr

/-- The `try` body of `_kill_process_group`: `pgid = os.getpgid(...)`,
`os.killpg(pgid, SIGKILL)` — exceptions propagate. -/
def killPgTry (env : KillEnv) : Except PyExc (List Event) := do
  let pgid ← env.getpgid
  let _ ← env.killpg
  pure [Event.killGroup pgid]

/-- `_kill_process_group`: the `try` body under its two handlers.
`ProcessLookupError` is passed over (already dead); any other exception
logs a warning and falls back to `process.kill()`, itself wrapped in a
bare `try/except: pass`, so no exception ever escapes. -/
def _kill_process_group (env : KillEnv) : Except PyExc (List Event) :=
  match killPgTry env with
  | .ok evs => .ok evs
  | .error .processLookup => .ok []
  | .error (.other _) =>
    match env.childKill with
    | .ok _ => .ok [Event.killChild]
    | .error _ => .ok [Event.killChild]

/-- The kill actions as seen by a caller of `_kill_process_group` (which
always returns normally). -/
def killEvents (env : KillEnv) : List Event :=
  match _kill_process_group env with
  | .ok evs => evs
  | .error _ => []

-- ===========================================================================
-- `build_site_and_notify` (main.py lines 132-189) — the background
-- orchestration task.
-- ===========================================================================

/-- Module configuration: `REMOTE_SITE_URL` after its `rstrip("/")`. -/
structure Config where
  remote_site_url : String
deriving Repr

/-- `BUILD_TIMEOUT` (main.py line 40). -/
def BUILD_TIMEOUT : Nat := 900

/-- The `BusinessData` request model (main.py lines 87-92). -/
structure BusinessData where
  business_name : String
  niche : String
  address : String
  tel : String
  webhook_url : String
deriving Repr

/-- Result of `await asyncio.wait_for(process.communicate(), ...)`:
either the timeout fires or the process finishes with an exit code and
captured stderr (already decoded, `errors="replace"`). -/
inductive CommResult where
  | timedOut
  | done (returncode : Int) (stderrText : String)
deriving DecidableEq, Repr

/-- One run's external world: whether the spawn raises (with message),
what the wait returns, the OS state at each possible kill site, and
whether each webhook POST raises (with message).  `kill2` is the kill
site inside the `except` handler, distinct from the timeout-path kill
site `kill1` because the OS state may have changed in between. -/
structure RunEnv where
  spawnError : Option String
  comm : CommResult
  kill1 : KillEnv
  kill2 : KillEnv
  postError : Option String
  post2Error : Option String
deriving Repr

/-- The webhook payload: a Python dict with optional keys (`none` = key
absent).  `exit_code` is never set by the code; the field records that
the dict carries no such key. -/
structure Payload where
  status : String
  business_name : Option String := none
  error : Option String := none
  site_url : Option String := none
  site_slug : Option String := none
  exit_code : Option Int := none
deriving DecidableEq, Repr

/-- The observable result of one orchestration run: the POST attempts in
order (an attempt is recorded even when the POST raises), the kill
actions in order, and the exception escaping the task, if any. -/
structure RunOut where
  posts : List (String × Payload)
  kills : List Event
  escaped : Option String
deriving Repr

/-- The timeout payload's error text (main.py line 161). -/
def timeoutErrText : String :=
  "Build exceeded " ++ toString (BUILD_TIMEOUT / 60) ++ "-minute timeout and was killed."

/-- The payload built for a finished process (main.py lines 167-178). -/
def donePayload (cfg : Config) (data : BusinessData) (rc : Int) (stderrText : String) : Payload :=
  if rc == 0 then
    if cfg.remote_site_url ≠ "" then
      { status := "success", business_name := some data.business_name,
        site_url := some (cfg.remote_site_url ++ "/" ++ _site_slug data.business_name ++ "/index.html") }
    else
      { status := "success", business_name := some data.business_name,
        site_slug := some (_site_slug data.business_name) }
  else
    { status := "error", error := some (pyStrip stderrText) }

/-- `build_site_and_notify`: each control-flow path of the Python
coroutine, with the `except Exception` handler applied where the `try`
body raises (spawn failure, or a raising first POST). -/
def build_site_and_notify (cfg : Config) (data : BusinessData) (env : RunEnv) : RunOut :=
  match env.spawnError with
  | some msg =>
    -- create_subprocess_exec raised: handler sees process None, posts once
    { posts := [(data.webhook_url, { status := "error", error := some msg })],
      kills := [], escaped := env.post2Error }
  | none =>
    match env.comm with
    | .timedOut =>
      let kills1 := killEvents env.kill1
      let tp : Payload := { status := "timeout",
                            business_name := some data.business_name,
                            error := some timeoutErrText }
      match env.postError with
      | none =>
        { posts := [(data.webhook_url, tp)], kills := kills1, escaped := none }
      | some m =>
        -- the timeout-branch POST raised: handler kills again and posts
        { posts := [(data.webhook_url, tp),
                    (data.webhook_url, { status := "error", error := some m })],
          kills := kills1 ++ killEvents env.kill2,
          escaped := env.post2Error }
    | .done rc stderrText =>
      let p := donePayload cfg data rc stderrText
      match env.postError with
      | none =>
        { posts := [(data.webhook_url, p)], kills := [], escaped := none }
      | some m =>
        { posts := [(data.webhook_url, p),
                    (data.webhook_url, { status := "error", error := some m })],
          kills := killEvents env.kill2,
          escaped := env.post2Error }

-- ===========================================================================
-- `generate_site` (main.py lines 191-208) — the submit endpoint.
-- ===========================================================================

/-- Filesystem state the submit endpoint can observe about `create.sh`. -/
structure SubmitEnv where
  createShExists : Bool
  createShExecutable : Bool
deriving Repr

/-- The submit endpoint's success response body. -/
structure SubmitResp where
  status : String
  message : String
  site_slug : String
  site_url : Option String := none
deriving DecidableEq, Repr

/-- `generate_site`: a 500 `HTTPException` (code, detail) or the response
body together with whether a background task was scheduled. -/
def generate_site (cfg : Config) (fs : SubmitEnv) (data : BusinessData) :
    Except (Nat × String) (SubmitResp × Bool) :=
  if !fs.createShExists then
    .error (500, "create.sh not found on server")
  else
    let slug := _site_slug data.business_name
    .ok ({ status := "processing", message := "Job added to queue.",
           site_slug := slug,
           site_url := if cfg.remote_site_url ≠ ""
             then some (cfg.remote_site_url ++ "/" ++ slug ++ "/index.html")
             else none },
         true)

-- ===========================================================================
-- `get_build_log` (main.py lines 252-287) — the status-query endpoint.
-- ===========================================================================

/-- The status-query response body. -/
structure LogResp where
  slug : String
  build_status : String
  stats : BuildStats
  log : String
deriving DecidableEq, Repr

/-- `get_build_log`: 404 when no log file exists; otherwise the windowed
raw log, tail-classified status and parsed stats.  A `ValueError` escaping
`_parse_build_stats` surfaces as an unhandled 500. -/
def get_build_log (slug : String) (logExists : Bool) (full_log : String) (lines : Int) :
    Except (Nat × String) LogResp :=
  if !logExists then
    .error (404, "No build.log for '" ++ slug ++ "'. Build may not have started yet.")
  else
    match _parse_build_stats full_log with
    | .error e => .error (500, e)
    | .ok st =>
      .ok { slug := slug,
            build_status := build_status full_log.toList,
            stats := st,
            log := String.mk (raw_log full_log.toList lines) }

example :
    get_build_log "s" true "x\n🌐 Open: http://h/s/index.html" 1 =
    .ok { slug := "s", build_status := "complete",
          stats := { site_url := some "http://h/s/index.html" },
          log := "🌐 Open: http://h/s/index.html" } := by rfl

-- ===========================================================================
-- Shared concrete inputs for witnesses and counterexamples
-- ===========================================================================

/-- A concrete build request used by several witnesses. -/
def exampleData : BusinessData :=
  { business_name := "Luigi's Salon", niche := "hair", address := "addr",
    tel := "123", webhook_url := "http://hook/cb" }

/-- A kill site where the group is alive and `killpg` works. -/
def liveKill : KillEnv := { getpgid := .ok 41, killpg := .ok (), childKill := .ok () }

/-- A kill site where the group has already exited. -/
def deadKill : KillEnv := { getpgid := .error .processLookup, killpg := .ok (), childKill := .ok () }

-- ===========================================================================
-- Helper lemmas
-- ===========================================================================

theorem takeLast_append_of_le {α : Type} (n : Nat) (pre log : List α)
    (h : n ≤ log.length) : takeLast n (pre ++ log) = takeLast n log := by
  unfold takeLast
  have h1 : (pre ++ log).length - n = pre.length + (log.length - n) := by
    simp only [List.length_append]
    omega
  rw [h1, List.drop_append]

-- ===========================================================================
-- C6 — slug determinism and output alphabet
-- ===========================================================================

/-- C6 counterexample: the spec's own pair of names differing only in
whitespace and case produces two *different* slugs — each space becomes
one hyphen, so whitespace runs and trailing whitespace survive as hyphen
runs and trailing hyphens. -/
theorem c6_counterexample :
    _site_slug "Luigi's Hair Salon  " = "luigis-hair-salon--" ∧
    _site_slug "luigi's   hair salon" = "luigis---hair-salon" ∧
    _site_slug "Luigi's Hair Salon  " ≠ _site_slug "luigi's   hair salon" := by
  refine ⟨by decide, by decide, by decide⟩

/-- C6 (amended): the slug is invariant under letter case — names with the
same character-wise lower-casing slug identically — and every character of
every slug lies in `[a-z0-9-]`.  (Whitespace is not normalized: each space
maps to one hyphen, so whitespace variations change the slug.) -/
theorem c6_slug_case_invariance_and_alphabet (s t : String) :
    (s.toList.map toLowerPy = t.toList.map toLowerPy → _site_slug s = _site_slug t) ∧
    (∀ c ∈ (_site_slug s).toList, slugAllowed c = true) := by
  constructor
  · intro h
    unfold _site_slug
    rw [h]
  · intro c hc
    have hc' : c ∈ ((s.toList.map toLowerPy).map
        (fun c => if c == ' ' then '-' else c)).filter slugAllowed := hc
    exact List.of_mem_filter hc'

/-- C6 witness. -/
theorem c6_witness :
    _site_slug "Luigi's Salon" = _site_slug "LUIGI'S SALON" ∧
    slugAllowed 'l' = true :=
  ⟨(c6_slug_case_invariance_and_alphabet "Luigi's Salon" "LUIGI'S SALON").1 (by decide),
   (c6_slug_case_invariance_and_alphabet "Luigi's Salon" "LUIGI'S SALON").2 'l' (by decide)⟩

-- ===========================================================================
-- C7 — tail-window status classification
-- ===========================================================================

set_option maxRecDepth 4096 in
/-- C7 (confirmed): the status query classifies from a bounded tail window
(the last 2000 characters — any prefix beyond it is irrelevant): a window
containing the completion marker is `complete`; otherwise one containing
the failure marker or the non-zero-exit marker is `failed`; otherwise the
status is `in_progress`; and the endpoint returns exactly this
classification of the full log. -/
theorem c7_status_tail_classification (pre log : List Char) :
    (2000 ≤ log.length → build_status (pre ++ log) = build_status log) ∧
    (containsSub (tailWindow log) openMarker = true → build_status log = "complete") ∧
    (containsSub (tailWindow log) openMarker = false →
      (containsSub (tailWindow log) failMarker || containsSub (tailWindow log) exitMarker) = true →
      build_status log = "failed") ∧
    (containsSub (tailWindow log) openMarker = false →
      containsSub (tailWindow log) failMarker = false →
      containsSub (tailWindow log) exitMarker = false →
      build_status log = "in_progress") ∧
    (∀ slug full lines resp, get_build_log slug true full lines = .ok resp →
      resp.build_status = build_status full.toList) := by
  refine ⟨?_, ?_, ?_, ?_, ?_⟩
  · intro h
    have : tailWindow (pre ++ log) = tailWindow log :=
      takeLast_append_of_le 2000 pre log h
    simp only [build_status, this]
  · intro h
    simp [build_status, h]
  · intro h1 h2
    simp [build_status, h1, h2]
  · intro h1 h2 h3
    simp [build_status, h1, h2, h3]
  · intro slug full lines resp h
    unfold get_build_log at h
    cases hp : _parse_build_stats full with
    | error e => simp [hp] at h
    | ok st =>
      simp [hp] at h
      subst h
      simp

/-- C7 witness. -/
theorem c7_witness :
    build_status ("x".toList ++ "🌐 Open: http://h/s/index.html stays here padding padding padding".toList) =
      build_status "🌐 Open: http://h/s/index.html stays here padding padding padding".toList ∨
    build_status "🌐 Open: y".toList = "complete" ∧
    build_status "❌ Failed".toList = "failed" ∧
    build_status "working".toList = "in_progress" ∧
    ({ slug := "s", build_status := "complete",
       stats := { site_url := some "http://h/s/index.html" },
       log := "x\n🌐 Open: http://h/s/index.html" } : LogResp).build_status =
      build_status "x\n🌐 Open: http://h/s/index.html".toList :=
  Or.inr ⟨(c7_status_tail_classification [] "🌐 Open: y".toList).2.1 (by decide),
   (c7_status_tail_classification [] "❌ Failed".toList).2.2.1 (by decide) (by decide),
   (c7_status_tail_classification [] "working".toList).2.2.2.1 (by decide) (by decide) (by decide),
   (c7_status_tail_classification [] [] ).2.2.2.2 "s" "x\n🌐 Open: http://h/s/index.html" 0
     { slug := "s", build_status := "complete",
       stats := { site_url := some "http://h/s/index.html" },
       log := "x\n🌐 Open: http://h/s/index.html" } (by rfl)⟩

-- ===========================================================================
-- C9 — completion marker takes precedence over failure markers
-- ===========================================================================

/-- C9 (confirmed): when the 2000-character tail window contains the
completion marker together with the failure marker or the exit marker,
the status is `complete` — the completion check runs first. -/
theorem c9_complete_takes_precedence (log : List Char)
    (h : containsSub (tailWindow log) openMarker = true)
    (h2 : containsSub (tailWindow log) failMarker = true ∨
          containsSub (tailWindow log) exitMarker = true) :
    build_status log = "complete" := by
  simp [build_status, h]

/-- C9 witness: a log whose tail holds both the failure marker and the
completion marker classifies as `complete`. -/
theorem c9_witness :
    build_status "❌ Failed (exit 1)\n🌐 Open: http://h/s/index.html".toList = "complete" :=
  c9_complete_takes_precedence "❌ Failed (exit 1)\n🌐 Open: http://h/s/index.html".toList
    (by decide) (Or.inl (by decide))

-- ===========================================================================
-- C10 — non-positive `lines` returns the full log
-- ===========================================================================

/-- C10 (confirmed): for every `lines ≤ 0` — negative values included —
the raw log returned is the full log text; the last-N-lines window is
applied only for strictly positive `lines`; and the endpoint's `log`
field is exactly this raw text. -/
theorem c10_nonpositive_lines_full_log (full : String) (lines : Int) :
    (lines ≤ 0 → raw_log full.toList lines = full.toList) ∧
    (0 < lines →
      raw_log full.toList lines = joinNL (takeLast lines.toNat (pySplitlines full.toList))) ∧
    (∀ slug resp, get_build_log slug true full lines = .ok resp →
      resp.log = String.mk (raw_log full.toList lines)) := by
  refine ⟨?_, ?_, ?_⟩
  · intro h
    unfold raw_log
    rw [if_neg]
    omega
  · intro h
    unfold raw_log
    rw [if_pos h]
  · intro slug resp h
    unfold get_build_log at h
    cases hp : _parse_build_stats full with
    | error e => simp [hp] at h
    | ok st =>
      simp [hp] at h
      subst h
      rfl

/-- C10 witness: `lines = -3` and `lines = 0` both return the whole log,
`lines = 2` returns the last two lines, and the endpoint agrees. -/
theorem c10_witness :
    raw_log "a\nb\nc".toList (-3) = "a\nb\nc".toList ∧
    raw_log "a\nb\nc".toList 0 = "a\nb\nc".toList ∧
    raw_log "a\nb\nc".toList 2 = joinNL (takeLast (Int.toNat 2) (pySplitlines "a\nb\nc".toList)) ∧
    ({ slug := "s", build_status := "in_progress", stats := {},
       log := "a\nb\nc" } : LogResp).log = String.mk (raw_log "a\nb\nc".toList (-3)) :=
  ⟨(c10_nonpositive_lines_full_log "a\nb\nc" (-3)).1 (by decide),
   (c10_nonpositive_lines_full_log "a\nb\nc" 0).1 (by decide),
   (c10_nonpositive_lines_full_log "a\nb\nc" 2).2.1 (by decide),
   (c10_nonpositive_lines_full_log "a\nb\nc" (-3)).2.2 "s"
     { slug := "s", build_status := "in_progress", stats := {}, log := "a\nb\nc" } (by rfl)⟩

-- ===========================================================================
-- C8 — idempotent, non-throwing process-group kill
-- ===========================================================================

/-- C8 (confirmed): `_kill_process_group` never lets an exception escape;
a group that already exited (lookup failure at either OS call) is treated
as success with nothing to do; and when the group kill itself is
unavailable it falls back to killing only the direct child. -/
theorem c8_kill_idempotent_nonthrowing (env : KillEnv) (pgid : Nat) (m : String) :
    (∃ evs, _kill_process_group env = .ok evs) ∧
    (env.getpgid = .error .processLookup → _kill_process_group env = .ok []) ∧
    (env.getpgid = .ok pgid → env.killpg = .error .processLookup →
      _kill_process_group env = .ok []) ∧
    (env.getpgid = .ok pgid → env.killpg = .error (.other m) →
      _kill_process_group env = .ok [Event.killChild]) := by
  obtain ⟨g, k, c⟩ := env
  refine ⟨?_, ?_, ?_, ?_⟩
  · cases g with
    | error e =>
      cases e with
      | processLookup => exact ⟨[], rfl⟩
      | other msg =>
        cases c with
        | ok u => exact ⟨[Event.killChild], rfl⟩
        | error e2 => exact ⟨[Event.killChild], rfl⟩
    | ok pg =>
      cases k with
      | ok u => exact ⟨[Event.killGroup pg], rfl⟩
      | error e =>
        cases e with
        | processLookup => exact ⟨[], rfl⟩
        | other msg =>
          cases c with
          | ok u => exact ⟨[Event.killChild], rfl⟩
          | error e2 => exact ⟨[Event.killChild], rfl⟩
  · intro hg
    cases hg
    rfl
  · intro hg hk
    cases hg
    cases hk
    rfl
  · intro hg hk
    cases hg
    cases hk
    cases c with
    | ok u => rfl
    | error e2 => rfl

/-- C8 witness: a dead group at `getpgid`, a dead group at `killpg`, and
an unavailable group kill each behave as claimed. -/
theorem c8_witness :
    _kill_process_group { getpgid := .error .processLookup, killpg := .ok (), childKill := .ok () } = .ok [] ∧
    _kill_process_group { getpgid := .ok 7, killpg := .error .processLookup, childKill := .ok () } = .ok [] ∧
    _kill_process_group { getpgid := .ok 7, killpg := .error (.other "EPERM"), childKill := .error (.other "gone") } = .ok [Event.killChild] :=
  ⟨(c8_kill_idempotent_nonthrowing _ 0 "").2.1 rfl,
   (c8_kill_idempotent_nonthrowing _ 7 "").2.2.1 rfl rfl,
   (c8_kill_idempotent_nonthrowing _ 7 "EPERM").2.2.2 rfl rfl⟩

-- ===========================================================================
-- C2 — timeout kills the whole process group and reports the limit
-- ===========================================================================

/-- C2 (confirmed): when the wait times out and the group-kill mechanism
works, the orchestrator's first action is a `SIGKILL` of the spawned
process's whole group, and the first (and, unless that POST raises, only)
callback POST is the timeout payload carrying the configured limit
(`BUILD_TIMEOUT // 60` minutes) in its error text. -/
theorem c2_timeout_kills_group_and_reports_limit
    (cfg : Config) (data : BusinessData) (env : RunEnv) (pgid : Nat)
    (hs : env.spawnError = none) (hc : env.comm = .timedOut)
    (hg : env.kill1.getpgid = .ok pgid) (hk : env.kill1.killpg = .ok ()) :
    (build_site_and_notify cfg data env).kills.head? = some (Event.killGroup pgid) ∧
    (build_site_and_notify cfg data env).posts.head? =
      some (data.webhook_url,
        { status := "timeout", business_name := some data.business_name,
          error := some "Build exceeded 15-minute timeout and was killed." }) := by
  obtain ⟨se, comm, k1, k2, pe, p2e⟩ := env
  simp only at hs hc hg hk
  subst hs
  subst hc
  have hkill : killEvents k1 = [Event.killGroup pgid] := by
    unfold killEvents _kill_process_group killPgTry
    rw [hg, hk]
    rfl
  have htext : timeoutErrText = "Build exceeded 15-minute timeout and was killed." := by rfl
  cases pe with
  | none =>
    simp [build_site_and_notify, hkill, htext]
  | some m =>
    simp [build_site_and_notify, hkill, htext]

/-- C2 witness. -/
theorem c2_witness :
    (build_site_and_notify { remote_site_url := "" } exampleData
      { spawnError := none, comm := .timedOut, kill1 := liveKill,
        kill2 := deadKill, postError := none, post2Error := none }).kills.head? =
      some (Event.killGroup 41) ∧
    (build_site_and_notify { remote_site_url := "" } exampleData
      { spawnError := none, comm := .timedOut, kill1 := liveKill,
        kill2 := deadKill, postError := none, post2Error := none }).posts.head? =
      some ("http://hook/cb",
        { status := "timeout", business_name := some "Luigi's Salon",
          error := some "Build exceeded 15-minute timeout and was killed." }) :=
  c2_timeout_kills_group_and_reports_limit { remote_site_url := "" } exampleData
    { spawnError := none, comm := .timedOut, kill1 := liveKill,
      kill2 := deadKill, postError := none, post2Error := none } 41
    rfl rfl rfl rfl

-- ===========================================================================
-- C1 — outcome and notification multiplicity
-- ===========================================================================

/-- C1 counterexample: the claim that *no* execution path performs more
than one notification attempt fails — when the build succeeds but the
single webhook POST raises (e.g. the callback is unreachable), the
generic `except` handler performs a second POST attempt. -/
theorem c1_counterexample :
    ((build_site_and_notify { remote_site_url := "" } exampleData
      { spawnError := none, comm := .done 0 "", kill1 := deadKill,
        kill2 := deadKill, postError := some "connection refused",
        post2Error := none }).posts.length = 2) := by rfl

/-- C1 (amended): every run performs at least one and at most two
notification attempts, and exactly one on every path where the first
POST does not itself raise — whether the child exits 0, exits non-zero,
times out, or the orchestration raises before the POST. -/
theorem c1_notification_attempt_count (cfg : Config) (data : BusinessData) (env : RunEnv) :
    1 ≤ (build_site_and_notify cfg data env).posts.length ∧
    (build_site_and_notify cfg data env).posts.length ≤ 2 ∧
    (env.postError = none → (build_site_and_notify cfg data env).posts.length = 1) := by
  obtain ⟨se, comm, k1, k2, pe, p2e⟩ := env
  cases se with
  | some msg => simp [build_site_and_notify]
  | none =>
    cases comm with
    | timedOut =>
      cases pe with
      | none => simp [build_site_and_notify]
      | some m => simp [build_site_and_notify]
    | done rc err =>
      cases pe with
      | none => simp [build_site_and_notify]
      | some m => simp [build_site_and_notify]

/-- C1 witness: a successful build whose POST succeeds performs exactly
one notification attempt. -/
theorem c1_witness :
    1 ≤ (build_site_and_notify { remote_site_url := "" } exampleData
      { spawnError := none, comm := .done 0 "", kill1 := deadKill,
        kill2 := deadKill, postError := none, post2Error := none }).posts.length ∧
    (build_site_and_notify { remote_site_url := "" } exampleData
      { spawnError := none, comm := .done 0 "", kill1 := deadKill,
        kill2 := deadKill, postError := none, post2Error := none }).posts.length ≤ 2 ∧
    (build_site_and_notify { remote_site_url := "" } exampleData
      { spawnError := none, comm := .done 0 "", kill1 := deadKill,
        kill2 := deadKill, postError := none, post2Error := none }).posts.length = 1 :=
  ⟨(c1_notification_attempt_count { remote_site_url := "" } exampleData
      { spawnError := none, comm := .done 0 "", kill1 := deadKill,
        kill2 := deadKill, postError := none, post2Error := none }).1,
   (c1_notification_attempt_count { remote_site_url := "" } exampleData
      { spawnError := none, comm := .done 0 "", kill1 := deadKill,
        kill2 := deadKill, postError := none, post2Error := none }).2.1,
   (c1_notification_attempt_count { remote_site_url := "" } exampleData
      { spawnError := none, comm := .done 0 "", kill1 := deadKill,
        kill2 := deadKill, postError := none, post2Error := none }).2.2 rfl⟩

-- ===========================================================================
-- C4 — failure payload contents
-- ===========================================================================

/-- C4 counterexample: the spec's scenario C — the build exits 1 with
stderr `"disk full"`.  The delivered payload is
`{"status": "error", "error": "disk full"}`: its error text is right but
it carries *no* exit-code key at all, against the claimed
`Failure{errorText, exitCode}`. -/
theorem c4_counterexample :
    (build_site_and_notify { remote_site_url := "" } exampleData
      { spawnError := none, comm := .done 1 "disk full", kill1 := deadKill,
        kill2 := deadKill, postError := none, post2Error := none }).posts =
      [("http://hook/cb", { status := "error", error := some "disk full" })] ∧
    (Payload.exit_code { status := "error", error := some "disk full" }) = none := by
  exact ⟨by rfl, by rfl⟩

/-- C4 (amended): on non-zero exit the callback payload has status
`"error"` and carries the captured stderr text stripped of surrounding
whitespace; the exit code is not part of the payload (the dict has no
such key — it is only printed to the server log). -/
theorem c4_failure_payload_text_without_exit_code
    (cfg : Config) (data : BusinessData) (env : RunEnv) (rc : Int) (err : String)
    (hs : env.spawnError = none) (hc : env.comm = .done rc err) (hrc : rc ≠ 0) :
    (build_site_and_notify cfg data env).posts.head? =
      some (data.webhook_url, { status := "error", error := some (pyStrip err) }) ∧
    (Payload.exit_code { status := "error", error := some (pyStrip err) }) = none := by
  obtain ⟨se, comm, k1, k2, pe, p2e⟩ := env
  simp only at hs hc
  subst hs
  subst hc
  have hne : (rc == 0) = false := by
    simp [hrc]
  cases pe with
  | none => exact ⟨by simp [build_site_and_notify, donePayload, hne], rfl⟩
  | some m => exact ⟨by simp [build_site_and_notify, donePayload, hne], rfl⟩

/-- C4 witness. -/
theorem c4_witness :
    (build_site_and_notify { remote_site_url := "" } exampleData
      { spawnError := none, comm := .done 2 "  boom\n", kill1 := deadKill,
        kill2 := deadKill, postError := none, post2Error := none }).posts.head? =
      some ("http://hook/cb", { status := "error", error := some (pyStrip "  boom\n") }) ∧
    (Payload.exit_code { status := "error", error := some (pyStrip "  boom\n") }) = none :=
  c4_failure_payload_text_without_exit_code { remote_site_url := "" } exampleData
    { spawnError := none, comm := .done 2 "  boom\n", kill1 := deadKill,
      kill2 := deadKill, postError := none, post2Error := none } 2 "  boom\n"
    rfl rfl (by decide)

-- ===========================================================================
-- C3 — submit-time validation
-- ===========================================================================

/-- C3 counterexample: with `create.sh` present but *not* executable, the
submit endpoint does not reject — it answers `"processing"` and schedules
the background task anyway (the endpoint checks only `os.path.exists`,
never `os.access(..., X_OK)`). -/
theorem c3_counterexample :
    generate_site { remote_site_url := "" }
      { createShExists := true, createShExecutable := false } exampleData =
      .ok ({ status := "processing", message := "Job added to queue.",
             site_slug := "luigis-salon", site_url := none }, true) := by rfl

/-- C3 (amended): the submit endpoint validates only that the build
program exists: a missing `create.sh` is rejected synchronously with a
500 configuration error and no job; a present `create.sh` is accepted and
a background task is scheduled regardless of whether it is executable (a
non-executable program fails later, inside the background run). -/
theorem c3_submit_checks_existence_only
    (cfg : Config) (fs : SubmitEnv) (data : BusinessData) :
    (fs.createShExists = false →
      generate_site cfg fs data = .error (500, "create.sh not found on server")) ∧
    (fs.createShExists = true →
      generate_site cfg fs data =
        .ok ({ status := "processing", message := "Job added to queue.",
               site_slug := _site_slug data.business_name,
               site_url := if cfg.remote_site_url ≠ ""
                 then some (cfg.remote_site_url ++ "/" ++ _site_slug data.business_name ++ "/index.html")
                 else none }, true)) := by
  constructor
  · intro h
    simp [generate_site, h]
  · intro h
    simp [generate_site, h]

/-- C3 witness. -/
theorem c3_witness :
    generate_site { remote_site_url := "" }
      { createShExists := false, createShExecutable := false } exampleData =
      .error (500, "create.sh not found on server") ∧
    generate_site { remote_site_url := "" }
      { createShExists := true, createShExecutable := true } exampleData =
      .ok ({ status := "processing", message := "Job added to queue.",
             site_slug := _site_slug "Luigi's Salon",
             site_url := if ("" : String) ≠ ""
               then some ("" ++ "/" ++ _site_slug "Luigi's Salon" ++ "/index.html")
               else none }, true) :=
  ⟨(c3_submit_checks_existence_only { remote_site_url := "" }
      { createShExists := false, createShExecutable := false } exampleData).1 rfl,
   (c3_submit_checks_existence_only { remote_site_url := "" }
      { createShExists := true, createShExecutable := true } exampleData).2 rfl⟩

-- ===========================================================================
-- C5 — totality of build-stats extraction
-- ===========================================================================

/-- C5 (code bug): the claim — and the design's stated intent — is that
stats extraction never fails, but the code converts the cost group with
Python `float(...)`, which raises `ValueError` on a malformed group such
as `"1.2.3"` (the regex class `[\d.]+` admits any number of dots).  The
log text `"Total: 1.2.3"` makes `_parse_build_stats` raise instead of
returning. -/
theorem c5_stats_extraction_crashes_on_malformed_log :
    _parse_build_stats "Total: 1.2.3" =
      .error "could not convert string to float: 1.2.3" ∧
    (_parse_build_stats "Total: .").isOk = false := by
  exact ⟨by rfl, by rfl⟩
